import Mathlib

/-!
Shallow embedding of the Telegram relay bot (bot.py) and verification of its
specified behaviour.

The program has three operations:
- get_cerebras_response: one remote completion call guarded by try/except,
  returning the first choice content on success and a fixed fallback string
  on any exception;
- start: the /start command handler, sending one Markdown greeting;
- handle_message: the text-message handler, which guards on falsy text, sends
  a typing indicator, awaits the completion, and replies in chunks of at most
  4096 characters.

Strings are modelled as lists of characters (Python len and slicing count
code points, as List Char does). The outcome of the remote API call is an
explicit parameter (success with arbitrary content, or an exception), and
each handler returns the ordered list of outbound effects it performs.
-/

namespace Bot

abbrev Str := List Char

/-- The fixed system-role instruction sent with every completion request. -/
def systemInstruction : Str :=
  "You are a helpful, intelligent AI assistant on Telegram.".data

/-- The fixed fallback string returned when the remote call raises. -/
def fallbackText : Str :=
  "⚠️ I encountered an error while processing your request. Please try again later.".data

/-- constants.ChatAction.TYPING -/
def typingAction : Str := "typing".data

/-- constants.ParseMode.MARKDOWN -/
def markdownParseMode : Str := "Markdown".data

/-- One entry of the messages array of a completion request. -/
structure ChatMessage where
  role : Str
  content : Str
deriving DecidableEq

/-- The request sent to client.chat.completions.create. -/
structure CompletionRequest where
  messages : List ChatMessage
  model : Str
deriving DecidableEq

/-- Outcome of the remote completion call, seen from the calling code: the
call either returns a response whose first choice carries some content
string, or raises some exception (network, authentication, API error,
malformed response — all reach the same except clause). -/
inductive ApiOutcome where
  | success (content : Str)
  | apiError
deriving DecidableEq

/-- An outbound effect performed by a handler, in order. -/
inductive Effect where
  | sendChatAction (chatId : Int) (action : Str)
  | completionCall (req : CompletionRequest)
  | logError
  | replyText (text : Str) (parseMode : Option Str)
deriving DecidableEq

/-- The request built inside get_cerebras_response: a system message with the
fixed instruction, then a user message with the prompt, for the configured
model. -/
def buildRequest (modelId user_input : Str) : CompletionRequest :=
  { messages := [ { role := "system".data, content := systemInstruction },
                  { role := "user".data, content := user_input } ],
    model := modelId }

/-- get_cerebras_response: issues one completion request; on success returns
chat_completion.choices[0].message.content verbatim; on any exception logs
the error and returns the fixed fallback string. Returns the effects it
performed paired with its string result (it is total: no exception escapes). -/
def get_cerebras_response (modelId user_input : Str) (outcome : ApiOutcome) :
    List Effect × Str :=
  match outcome with
  | ApiOutcome.success content =>
      ([Effect.completionCall (buildRequest modelId user_input)], content)
  | ApiOutcome.apiError =>
      ([Effect.completionCall (buildRequest modelId user_input), Effect.logError],
       fallbackText)

/-- An incoming update as the handlers read it: chat id, sender first name,
and optional text (absent for non-text update shapes). -/
structure IncomingUpdate where
  chatId : Int
  firstName : Str
  text : Option Str
deriving DecidableEq

/-- The welcome_text composed by the start handler. -/
def welcomeText (firstName modelId : Str) : Str :=
  "Hello, ".data ++ firstName ++ "! 🤖\n\n".data ++
  "I am an AI Bot powered by the hyper-fast **Cerebras ".data ++ modelId ++
  "**.\n\n".data ++
  "Ask me anything, and I will generate code, summarize text, or answer questions instantly.".data

/-- start: the /start handler. Sends exactly one reply, with Markdown parse
mode, containing the greeting. -/
def start (modelId : Str) (upd : IncomingUpdate) : List Effect :=
  [Effect.replyText (welcomeText upd.firstName modelId) (some markdownParseMode)]

/-- The reply loop: for x in range(0, len(ai_response), 4096):
reply(ai_response[x:x+4096]). Returns the chunks in the order sent. -/
def sendChunks (s : Str) (x : Nat) : List Str :=
  if h : x < s.length then
    (s.drop x).take 4096 :: sendChunks s (x + 4096)
  else []
termination_by s.length - x
decreasing_by omega

/-- The reply step of handle_message: if len(ai_response) > 4096 the chunk
loop runs, else one reply with the whole string. Returns the texts of the
replies sent, in order. -/
def splitReply (ai_response : Str) : List Str :=
  if ai_response.length > 4096 then sendChunks ai_response 0
  else [ai_response]

/-- handle_message: reads update.message.text; if falsy (absent or empty)
returns with no effect; otherwise sends the typing chat action, runs
get_cerebras_response with the text (awaited in an executor), and sends the
reply chunks in order. -/
def handle_message (modelId : Str) (upd : IncomingUpdate) (outcome : ApiOutcome) :
    List Effect :=
  match upd.text with
  | none => []
  | some user_text =>
    if user_text.isEmpty then []
    else
      let r := get_cerebras_response modelId user_text outcome
      Effect.sendChatAction upd.chatId typingAction ::
        (r.fst ++ (splitReply r.snd).map (fun c => Effect.replyText c none))

/-- The text of a reply effect, none for any other effect. -/
def replyTextOf : Effect → Option Str
  | Effect.replyText t _ => some t
  | _ => none

/-- The texts of the reply messages in an effect list, in order. -/
def sentReplies (effs : List Effect) : List Str :=
  effs.filterMap replyTextOf

/-- A sample update used to instantiate the verified properties on concrete
inputs. -/
def updateWithText (t : Option Str) : IncomingUpdate :=
  { chatId := 7, firstName := "Ann".data, text := t }

/-! ## Helper lemmas about the chunk loop -/

theorem sendChunks_cons (s : Str) (x : Nat) (h : x < s.length) :
    sendChunks s x = (s.drop x).take 4096 :: sendChunks s (x + 4096) := by
  rw [sendChunks, dif_pos h]

theorem sendChunks_nil (s : Str) (x : Nat) (h : ¬ x < s.length) :
    sendChunks s x = [] := by
  rw [sendChunks, dif_neg h]

theorem sendChunks_flatten (s : Str) (x : Nat) :
    (sendChunks s x).flatten = s.drop x := by
  refine sendChunks.induct s (fun x => (sendChunks s x).flatten = s.drop x) ?_ ?_ x
  · intro x h ih
    rw [sendChunks, dif_pos h, List.flatten_cons, ih, ← List.drop_drop]
    exact List.take_append_drop 4096 (s.drop x)
  · intro x h
    rw [sendChunks, dif_neg h, List.flatten_nil]
    rw [List.drop_eq_nil_of_le (by omega)]

theorem sendChunks_length (s : Str) (x : Nat) :
    (sendChunks s x).length = (s.length - x + 4095) / 4096 := by
  refine sendChunks.induct s
    (fun x => (sendChunks s x).length = (s.length - x + 4095) / 4096) ?_ ?_ x
  · intro x h ih
    rw [sendChunks, dif_pos h, List.length_cons, ih]
    omega
  · intro x h
    rw [sendChunks, dif_neg h]
    simp
    omega

theorem sendChunks_mem (s : Str) (x : Nat) :
    ∀ c ∈ sendChunks s x, c.length ≤ 4096 ∧ c ≠ [] := by
  refine sendChunks.induct s
    (fun x => ∀ c ∈ sendChunks s x, c.length ≤ 4096 ∧ c ≠ []) ?_ ?_ x
  · intro x h ih c hc
    rw [sendChunks, dif_pos h] at hc
    rcases List.mem_cons.mp hc with rfl | hc
    · constructor
      · simp
      · have hlen : ((s.drop x).take 4096).length = min 4096 (s.length - x) := by
          simp
        intro hnil
        rw [hnil] at hlen
        simp at hlen
        omega
    · exact ih c hc
  · intro x h c hc
    rw [sendChunks, dif_neg h] at hc
    exact absurd hc (List.not_mem_nil c)

theorem sendChunks_full (s : Str) (x : Nat) :
    (s.length - x) % 4096 = 0 → ∀ c ∈ sendChunks s x, c.length = 4096 := by
  refine sendChunks.induct s
    (fun x => (s.length - x) % 4096 = 0 → ∀ c ∈ sendChunks s x, c.length = 4096) ?_ ?_ x
  · intro x h ih hmod c hc
    rw [sendChunks, dif_pos h] at hc
    rcases List.mem_cons.mp hc with rfl | hc
    · rw [List.length_take, List.length_drop]
      omega
    · exact ih (by omega) c hc
  · intro x h hmod c hc
    rw [sendChunks, dif_neg h] at hc
    exact absurd hc (List.not_mem_nil c)

/-! ## Helper lemmas about splitReply -/

theorem splitReply_flatten (s : Str) : (splitReply s).flatten = s := by
  unfold splitReply
  by_cases h : s.length > 4096
  · rw [if_pos h, sendChunks_flatten, List.drop_zero]
  · rw [if_neg h]
    simp

theorem splitReply_length (s : Str) (h : 0 < s.length) :
    (splitReply s).length = (s.length + 4095) / 4096 := by
  unfold splitReply
  by_cases h4 : s.length > 4096
  · rw [if_pos h4, sendChunks_length]
    omega
  · rw [if_neg h4]
    simp
    omega

theorem splitReply_mem (s : Str) (h : s ≠ []) :
    ∀ c ∈ splitReply s, c.length ≤ 4096 ∧ c ≠ [] := by
  unfold splitReply
  by_cases h4 : s.length > 4096
  · rw [if_pos h4]
    exact sendChunks_mem s 0
  · rw [if_neg h4]
    intro c hc
    rcases List.mem_cons.mp hc with rfl | hc
    · exact ⟨by omega, h⟩
    · exact absurd hc (List.not_mem_nil c)

theorem splitReply_single (s : Str) (h : s.length ≤ 4096) : splitReply s = [s] := by
  unfold splitReply
  rw [if_neg (by omega)]

theorem splitReply_full (s : Str) (h0 : s ≠ []) (hmod : s.length % 4096 = 0) :
    ∀ c ∈ splitReply s, c.length = 4096 := by
  unfold splitReply
  by_cases h4 : s.length > 4096
  · rw [if_pos h4]
    exact sendChunks_full s 0 (by omega)
  · rw [if_neg h4]
    intro c hc
    rcases List.mem_cons.mp hc with rfl | hc
    · have : 0 < c.length := List.length_pos.mpr h0
      omega
    · exact absurd hc (List.not_mem_nil c)

theorem splitReply_9000 (s : Str) (h : s.length = 9000) :
    (splitReply s).map List.length = [4096, 4096, 808] := by
  unfold splitReply
  rw [if_pos (by omega)]
  rw [sendChunks_cons s 0 (by omega), sendChunks_cons s 4096 (by omega),
      sendChunks_cons s 8192 (by omega), sendChunks_nil s 12288 (by omega)]
  simp [h]

/-! ## Helper lemmas about handle_message -/

theorem handle_message_none (modelId : Str) (upd : IncomingUpdate)
    (outcome : ApiOutcome) (h : upd.text = none) :
    handle_message modelId upd outcome = [] := by
  simp [handle_message, h]

theorem handle_message_some (modelId : Str) (upd : IncomingUpdate) (t : Str)
    (outcome : ApiOutcome) (ht : upd.text = some t) (hne : t ≠ []) :
    handle_message modelId upd outcome =
      Effect.sendChatAction upd.chatId typingAction ::
        ((get_cerebras_response modelId t outcome).fst ++
          (splitReply (get_cerebras_response modelId t outcome).snd).map
            (fun c => Effect.replyText c none)) := by
  have hemp : t.isEmpty = false := by
    cases t with
    | nil => exact absurd rfl hne
    | cons a ts => rfl
  simp [handle_message, ht, hemp]

theorem filterMap_replyTextOf_map (l : List Str) (pm : Option Str) :
    l.filterMap (replyTextOf ∘ fun c => Effect.replyText c pm) = l := by
  induction l with
  | nil => rfl
  | cons a l ih =>
      rw [List.filterMap_cons]
      simp [Function.comp, replyTextOf, ih]

theorem sentReplies_handle (modelId : Str) (upd : IncomingUpdate) (t : Str)
    (outcome : ApiOutcome) (ht : upd.text = some t) (hne : t ≠ []) :
    sentReplies (handle_message modelId upd outcome) =
      splitReply (get_cerebras_response modelId t outcome).snd := by
  rw [handle_message_some modelId upd t outcome ht hne]
  unfold sentReplies
  rw [List.filterMap_cons]
  cases outcome <;>
    simp [get_cerebras_response, List.filterMap_append, List.filterMap_cons,
      replyTextOf, filterMap_replyTextOf_map]

/-! ## Claim theorems -/

/-- C1: for every completion result of positive length, chunking at size
4096 yields exactly ceil(L/4096) reply chunks, each at most 4096 characters,
whose concatenation in the order sent is the original string; a
9000-character result gives exactly the chunk lengths 4096, 4096, 808. -/
theorem chunking_exact (s : Str) (hL : 0 < s.length) :
    (splitReply s).length = (s.length + 4095) / 4096 ∧
    (∀ c ∈ splitReply s, c.length ≤ 4096) ∧
    (splitReply s).flatten = s ∧
    (s.length = 9000 → (splitReply s).map List.length = [4096, 4096, 808]) := by
  refine ⟨splitReply_length s hL, ?_, splitReply_flatten s, splitReply_9000 s⟩
  intro c hc
  have hne : s ≠ [] := by
    intro h0
    rw [h0] at hL
    simp at hL
  exact (splitReply_mem s hne c hc).1

/-- Witness for C1 at a concrete three-character result. -/
theorem chunking_exact_witness :
    0 < ("abc".data).length ∧
    ((splitReply "abc".data).length = (("abc".data).length + 4095) / 4096 ∧
     (∀ c ∈ splitReply "abc".data, c.length ≤ 4096) ∧
     (splitReply "abc".data).flatten = "abc".data ∧
     (("abc".data).length = 9000 →
       (splitReply "abc".data).map List.length = [4096, 4096, 808])) :=
  ⟨by decide, chunking_exact "abc".data (by decide)⟩

/-- C2 counterexample: a success outcome whose first-choice content is the
empty string makes get_cerebras_response return the empty string, so the
result of the complete operation is not always a non-empty string. -/
theorem complete_nonempty_counterexample :
    (get_cerebras_response "llama".data "Hello".data
        (ApiOutcome.success [])).snd = [] := rfl

/-- C2 (amended): for every non-empty prompt and every outcome of the remote
call, get_cerebras_response returns without raising (it is a total function)
either the success content verbatim or the fixed fallback string; the result
is empty only when the remote call itself succeeded with empty content, and
in particular on every failure it is the non-empty fallback. -/
theorem complete_total_amended (modelId prompt : Str) (hp : prompt ≠ [])
    (outcome : ApiOutcome) :
    ((∃ c, outcome = ApiOutcome.success c ∧
        (get_cerebras_response modelId prompt outcome).snd = c) ∨
      (outcome = ApiOutcome.apiError ∧
        (get_cerebras_response modelId prompt outcome).snd = fallbackText)) ∧
    ((get_cerebras_response modelId prompt outcome).snd = [] →
      outcome = ApiOutcome.success []) ∧
    fallbackText ≠ [] := by
  cases outcome with
  | success c =>
      refine ⟨Or.inl ⟨c, rfl, rfl⟩, ?_, by decide⟩
      intro h
      have hc : c = [] := h
      rw [hc]
  | apiError =>
      refine ⟨Or.inr ⟨rfl, rfl⟩, ?_, by decide⟩
      intro h
      have hb : fallbackText = [] := h
      exact absurd hb (by decide)

/-- Witness for C2 (amended) at a concrete prompt and a failing call. -/
theorem complete_total_amended_witness :
    ("Hello".data ≠ []) ∧
    (((∃ c, ApiOutcome.apiError = ApiOutcome.success c ∧
        (get_cerebras_response "llama".data "Hello".data ApiOutcome.apiError).snd = c) ∨
      (ApiOutcome.apiError = ApiOutcome.apiError ∧
        (get_cerebras_response "llama".data "Hello".data ApiOutcome.apiError).snd =
          fallbackText)) ∧
     ((get_cerebras_response "llama".data "Hello".data ApiOutcome.apiError).snd = [] →
        ApiOutcome.apiError = ApiOutcome.success []) ∧
     fallbackText ≠ []) :=
  ⟨by decide,
   complete_total_amended "llama".data "Hello".data (by decide) ApiOutcome.apiError⟩

/-- C3: on success the complete operation returns the first-choice content
verbatim, and the single request it sends carries exactly the fixed system
instruction followed by the user prompt, addressed to the configured model
identifier. -/
theorem complete_success_verbatim (modelId prompt content : Str) :
    (get_cerebras_response modelId prompt (ApiOutcome.success content)).snd = content ∧
    (get_cerebras_response modelId prompt (ApiOutcome.success content)).fst =
      [Effect.completionCall
        { messages :=
            [{ role := "system".data,
               content := "You are a helpful, intelligent AI assistant on Telegram.".data },
             { role := "user".data, content := prompt }],
          model := modelId }] :=
  ⟨rfl, rfl⟩

/-- C4: an update whose message has no text makes handle_message return
immediately with zero outbound effects. -/
theorem no_text_no_effects (modelId : Str) (upd : IncomingUpdate)
    (outcome : ApiOutcome) (h : upd.text = none) :
    handle_message modelId upd outcome = [] :=
  handle_message_none modelId upd outcome h

/-- Witness for C4 at a concrete textless update. -/
theorem no_text_no_effects_witness :
    (updateWithText none).text = none ∧
    handle_message "llama".data (updateWithText none) ApiOutcome.apiError = [] :=
  ⟨rfl, no_text_no_effects "llama".data (updateWithText none) ApiOutcome.apiError rfl⟩

/-- C5: the start handler sends exactly one outbound message, with Markdown
parse mode, and its text contains both the sender first name and the
configured model identifier. -/
theorem start_single_greeting (modelId : Str) (upd : IncomingUpdate) :
    start modelId upd =
      [Effect.replyText (welcomeText upd.firstName modelId) (some markdownParseMode)] ∧
    (∃ a b, a ++ upd.firstName ++ b = welcomeText upd.firstName modelId) ∧
    (∃ a b, a ++ modelId ++ b = welcomeText upd.firstName modelId) := by
  refine ⟨rfl, ?_, ?_⟩
  · exact ⟨"Hello, ".data,
      "! 🤖\n\n".data ++
        "I am an AI Bot powered by the hyper-fast **Cerebras ".data ++ modelId ++
        "**.\n\n".data ++
        "Ask me anything, and I will generate code, summarize text, or answer questions instantly.".data,
      by simp [welcomeText]⟩
  · exact ⟨"Hello, ".data ++ upd.firstName ++ "! 🤖\n\n".data ++
        "I am an AI Bot powered by the hyper-fast **Cerebras ".data,
      "**.\n\n".data ++
        "Ask me anything, and I will generate code, summarize text, or answer questions instantly.".data,
      by simp [welcomeText]⟩

/-- C6: when the remote call raises, a handled text update produces exactly
one reply, equal to the fixed fallback string, and an error is logged. -/
theorem api_error_fallback_reply (modelId : Str) (upd : IncomingUpdate) (t : Str)
    (ht : upd.text = some t) (hne : t ≠ []) :
    sentReplies (handle_message modelId upd ApiOutcome.apiError) = [fallbackText] ∧
    Effect.logError ∈ handle_message modelId upd ApiOutcome.apiError := by
  constructor
  · rw [sentReplies_handle modelId upd t ApiOutcome.apiError ht hne]
    exact splitReply_single fallbackText (by decide)
  · rw [handle_message_some modelId upd t ApiOutcome.apiError ht hne]
    simp [get_cerebras_response]

/-- Witness for C6 at a concrete update with text and a failing call. -/
theorem api_error_fallback_reply_witness :
    (updateWithText (some "Hi".data)).text = some "Hi".data ∧
    "Hi".data ≠ [] ∧
    (sentReplies
        (handle_message "llama".data (updateWithText (some "Hi".data))
          ApiOutcome.apiError) = [fallbackText] ∧
     Effect.logError ∈
        handle_message "llama".data (updateWithText (some "Hi".data))
          ApiOutcome.apiError) :=
  ⟨rfl, by decide,
   api_error_fallback_reply "llama".data (updateWithText (some "Hi".data))
     "Hi".data rfl (by decide)⟩

/-- C7: a handled text update performs its effects strictly in sequence: the
typing indicator first, then the completion call (followed only by possible
error logging), and only then the reply chunks, in chunk order; no reply
precedes the completion result. -/
theorem handled_effects_ordered (modelId : Str) (upd : IncomingUpdate) (t : Str)
    (outcome : ApiOutcome) (ht : upd.text = some t) (hne : t ≠ []) :
    ∃ logs : List Effect,
      (∀ e ∈ logs, e = Effect.logError) ∧
      handle_message modelId upd outcome =
        Effect.sendChatAction upd.chatId typingAction ::
        Effect.completionCall (buildRequest modelId t) ::
        (logs ++
          (splitReply (get_cerebras_response modelId t outcome).snd).map
            (fun c => Effect.replyText c none)) := by
  rw [handle_message_some modelId upd t outcome ht hne]
  cases outcome with
  | success c => exact ⟨[], by simp, rfl⟩
  | apiError => exact ⟨[Effect.logError], by simp, rfl⟩

/-- Witness for C7 at a concrete update with text and a successful call. -/
theorem handled_effects_ordered_witness :
    (updateWithText (some "Hi".data)).text = some "Hi".data ∧
    "Hi".data ≠ [] ∧
    (∃ logs : List Effect,
      (∀ e ∈ logs, e = Effect.logError) ∧
      handle_message "llama".data (updateWithText (some "Hi".data))
          (ApiOutcome.success "Yo".data) =
        Effect.sendChatAction (updateWithText (some "Hi".data)).chatId typingAction ::
        Effect.completionCall (buildRequest "llama".data "Hi".data) ::
        (logs ++
          (splitReply
              (get_cerebras_response "llama".data "Hi".data
                (ApiOutcome.success "Yo".data)).snd).map
            (fun c => Effect.replyText c none))) :=
  ⟨rfl, by decide,
   handled_effects_ordered "llama".data (updateWithText (some "Hi".data))
     "Hi".data (ApiOutcome.success "Yo".data) rfl (by decide)⟩

/-- C8: a completion result of at most 4096 characters is sent back as
exactly one reply equal to the result verbatim. -/
theorem short_result_single_reply (modelId : Str) (upd : IncomingUpdate)
    (t content : Str) (ht : upd.text = some t) (hne : t ≠ [])
    (hlen : content.length ≤ 4096) :
    sentReplies (handle_message modelId upd (ApiOutcome.success content)) =
      [content] := by
  rw [sentReplies_handle modelId upd t (ApiOutcome.success content) ht hne]
  exact splitReply_single content hlen

/-- Witness for C8: the prompt Hello with result Hi there! yields exactly one
reply Hi there!. -/
theorem short_result_single_reply_witness :
    (updateWithText (some "Hello".data)).text = some "Hello".data ∧
    "Hello".data ≠ [] ∧
    ("Hi there!".data).length ≤ 4096 ∧
    sentReplies
        (handle_message "llama".data (updateWithText (some "Hello".data))
          (ApiOutcome.success "Hi there!".data)) = ["Hi there!".data] :=
  ⟨rfl, by decide, by decide,
   short_result_single_reply "llama".data (updateWithText (some "Hello".data))
     "Hello".data "Hi there!".data rfl (by decide) (by decide)⟩

/-- C10: every reply sent for a non-empty completion result is non-empty and
at most 4096 characters; a result of exactly 4096 characters goes out as a
single message, and when the result length is a multiple of 4096 every chunk
is exactly 4096 characters long, so no empty trailing chunk is ever sent. -/
theorem reply_chunks_invariant (modelId : Str) (upd : IncomingUpdate)
    (t content : Str) (ht : upd.text = some t) (hne : t ≠ []) (hc : content ≠ []) :
    (∀ c ∈ sentReplies (handle_message modelId upd (ApiOutcome.success content)),
        c ≠ [] ∧ c.length ≤ 4096) ∧
    (content.length = 4096 →
      sentReplies (handle_message modelId upd (ApiOutcome.success content)) =
        [content]) ∧
    (content.length % 4096 = 0 →
      ∀ c ∈ sentReplies (handle_message modelId upd (ApiOutcome.success content)),
        c.length = 4096) := by
  rw [sentReplies_handle modelId upd t (ApiOutcome.success content) ht hne]
  refine ⟨?_, ?_, ?_⟩
  · intro c hcm
    have hm := splitReply_mem content hc c hcm
    exact ⟨hm.2, hm.1⟩
  · intro h4096
    exact splitReply_single content (by omega)
  · intro hmod
    exact splitReply_full content hc hmod

/-- Witness for C10 at a concrete update and a short non-empty result. -/
theorem reply_chunks_invariant_witness :
    (updateWithText (some "Hello".data)).text = some "Hello".data ∧
    "Hello".data ≠ [] ∧
    "Hi there!".data ≠ [] ∧
    ((∀ c ∈ sentReplies
          (handle_message "llama".data (updateWithText (some "Hello".data))
            (ApiOutcome.success "Hi there!".data)),
        c ≠ [] ∧ c.length ≤ 4096) ∧
     (("Hi there!".data).length = 4096 →
       sentReplies
          (handle_message "llama".data (updateWithText (some "Hello".data))
            (ApiOutcome.success "Hi there!".data)) = ["Hi there!".data]) ∧
     (("Hi there!".data).length % 4096 = 0 →
       ∀ c ∈ sentReplies
            (handle_message "llama".data (updateWithText (some "Hello".data))
              (ApiOutcome.success "Hi there!".data)),
          c.length = 4096)) :=
  ⟨rfl, by decide, by decide,
   reply_chunks_invariant "llama".data (updateWithText (some "Hello".data))
     "Hello".data "Hi there!".data rfl (by decide) (by decide)⟩

/-- C9: a present but empty text string is also falsy for the guard: the
handler returns before the typing indicator with zero outbound effects and
no completion call. -/
theorem empty_text_no_effects (modelId : Str) (upd : IncomingUpdate)
    (outcome : ApiOutcome) (h : upd.text = some []) :
    handle_message modelId upd outcome = [] := by
  simp [handle_message, h]

/-- Witness for C9 at a concrete update carrying an empty text string. -/
theorem empty_text_no_effects_witness :
    (updateWithText (some [])).text = some [] ∧
    handle_message "llama".data (updateWithText (some [])) ApiOutcome.apiError = [] :=
  ⟨rfl,
   empty_text_no_effects "llama".data (updateWithText (some []))
     ApiOutcome.apiError rfl⟩

end Bot
